import Mathlib

/-
Verification of the muxgeist daemon (src/muxgeist-daemon.c).

C strings are modelled as lists of characters (`CStr`).  Buffer limits
(`strncpy`, `snprintf`, `fread` capacities) are modelled with `List.take`.
External processes (`popen`/`fread` results) are modelled as explicit
environment values: `none` means the process could not be started, and
`some out` carries the raw standard-output text.
-/

abbrev CStr := List Char

/-- Shared constants from the C source. -/
def MAX_SESSIONS : Nat := 32

def MAX_BUFFER_SIZE : Nat := 16384

def PATH_MAX : Nat := 4096

/-- Removal of one trailing newline, as done at the end of
`execute_tmux_command` (`if total_read > 0 && output[total_read-1] == '\n'`). -/
def stripNl (l : CStr) : CStr :=
  if l.getLast? = some '\n' then l.dropLast else l

/-- `execute_tmux_command`: `popen` the command (the environment supplies the
spawn outcome: `none` when `popen` fails, otherwise the raw stdout together
with the exit status, which the C code ignores via `pclose`), `fread` at most
`output_size - 1` bytes, then strip one trailing newline. -/
def execute_tmux_command (spawned : Option (CStr × Int)) (output_size : Nat) :
    Option CStr :=
  match spawned with
  | none => none
  | some r => some (stripNl (r.1.take (output_size - 1)))

/-- `strtok(s, "\n")` tokenization: maximal non-empty chunks between newlines. -/
def splitLinesAux : CStr → CStr → List CStr
  | [], acc => if acc = [] then [] else [acc.reverse]
  | c :: rest, acc =>
    if c = '\n' then
      if acc = [] then splitLinesAux rest []
      else acc.reverse :: splitLinesAux rest []
    else splitLinesAux rest (c :: acc)

def splitLines (l : CStr) : List CStr := splitLinesAux l []

/-- Test whether the first list starts the second one. -/
def isPreOf : CStr → CStr → Bool
  | [], _ => true
  | _ :: _, [] => false
  | a :: as, b :: bs => a == b && isPreOf as bs

/-- `strstr(hay, needle) != NULL`: the needle occurs somewhere in the hay
(first argument is the needle). -/
def containsSub (needle : CStr) : CStr → Bool
  | [] => isPreOf needle []
  | c :: rest => isPreOf needle (c :: rest) || containsSub needle rest

/-- `strchr`: split a list at the first occurrence of a character, returning
the parts before and after it. -/
def splitAtChar (ch : Char) : CStr → Option (CStr × CStr)
  | [] => none
  | c :: rest =>
    if c = ch then some ([], rest)
    else
      match splitAtChar ch rest with
      | some p => some (c :: p.1, p.2)
      | none => none

/-- `%d` / `%ld` rendering of a natural number. -/
def natStr (n : Nat) : CStr := (Nat.repr n).data

/- ---------------------------------------------------------------------
Session registry (`session_context_t`, `find_session`, `create_session`).
--------------------------------------------------------------------- -/

structure SessionContext where
  session_id : CStr
  current_cwd : CStr
  current_pane : CStr
  last_activity : Nat
  scrollback : CStr
  scrollback_len : Nat
deriving DecidableEq

/-- The zero-initialized entry written by `create_session`: the id is copied
with `strncpy(dst, src, 63)` into a 64-byte field, hence truncated to 63
characters. -/
def newSession (id : CStr) (now : Nat) : SessionContext :=
  { session_id := id.take 63
    current_cwd := []
    current_pane := []
    last_activity := now
    scrollback := []
    scrollback_len := 0 }

/-- `find_session`: linear scan for an exact `strcmp` match. -/
def find_session (st : List SessionContext) (id : CStr) : Option SessionContext :=
  st.find? (fun s => s.session_id == id)

/-- `create_session`: `NULL` when the table is full, otherwise append a fresh
zero-initialized entry. -/
def create_session (st : List SessionContext) (id : CStr) (now : Nat) :
    List SessionContext × Option SessionContext :=
  if MAX_SESSIONS ≤ st.length then (st, none)
  else (st ++ [newSession id now], some (newSession id now))

/-- The find-or-create pattern used by `scan_tmux_sessions`
(`find_session`, then `create_session` when absent). -/
def createIfAbsent (st : List SessionContext) (id : CStr) (now : Nat) :
    List SessionContext × Option SessionContext :=
  match find_session st id with
  | some s => (st, some s)
  | none => create_session st id now

/-- A whole sequence of find-or-create steps starting from the empty registry. -/
def runScans (ops : List (CStr × Nat)) : List SessionContext :=
  ops.foldl (fun st p => (createIfAbsent st p.1 p.2).1) []

/- ---------------------------------------------------------------------
Pane capture engine (`capture_all_panes`).
--------------------------------------------------------------------- -/

/-- Environment for one `capture_all_panes` run: `paneListSpawn` is the
`popen` outcome of `tmux list-panes` (raw stdout and exit status);
`capturePane pid` is the `popen`/`fread` outcome of
`tmux capture-pane -t sess:pid -p`; `captureActive` the outcome of capturing
the active pane (`tmux capture-pane -t sess -p`).  `activeId` and
`activeTitle` record which listed pane actually is the active one, so that
statements can speak about where the fallback content comes from. -/
structure CaptureEnv where
  paneListSpawn : Option (CStr × Int)
  capturePane : CStr → Option CStr
  captureActive : Option CStr
  activeId : CStr
  activeTitle : CStr

/-- Parsing of one `list-panes` line, `"window.pane:title:command"`, by the
two `strchr(':')` calls; the fields go through `strncpy` into `pane_id[32]`,
`pane_title[64]` (initialized `"shell"`) and `pane_command[64]`. -/
def parsePaneLine (line : CStr) : CStr × CStr × CStr :=
  match splitAtChar ':' line with
  | none => (line.take 31, "shell".data, [])
  | some p =>
    match splitAtChar ':' p.2 with
    | none => (p.1.take 31, p.2.take 63, [])
    | some q => (p.1.take 31, q.1.take 63, q.2.take 63)

/-- `"\n=== PANE %s (%s) ===\n"` header for one captured pane. -/
def paneHeader (pid title : CStr) : CStr :=
  "\n=== PANE ".data ++ pid ++ " (".data ++ title ++ ") ===\n".data

/-- One append step of `capture_all_panes`: the header is written by
`snprintf` and its full length added only when it fits
(`scrollback_len + header_len < sizeof(scrollback)`), then the content is
copied with `copy_len = min(content_len, available_space)`. -/
def appendPane (acc pid title content : CStr) : CStr :=
  let header := paneHeader pid title
  let acc1 := if acc.length + header.length < MAX_BUFFER_SIZE then acc ++ header
              else acc
  acc1 ++ content.take (min content.length (MAX_BUFFER_SIZE - acc1.length - 1))

/-- The `while (line != NULL && scrollback_len < sizeof - 500)` loop over
pane lines.  Besides the scrollback text it returns the list of
`(pane_id, pane_title)` pairs whose captured content was appended (these are
exactly the panes for which the C code increments `pane_count`). -/
def panesLoop (env : CaptureEnv) : List CStr → CStr → CStr × List (CStr × CStr)
  | [], acc => (acc, [])
  | line :: rest, acc =>
    if acc.length < MAX_BUFFER_SIZE - 500 then
      let p := parsePaneLine line
      if containsSub "muxgeist".data p.2.1 then panesLoop env rest acc
      else
        match env.capturePane p.1 with
        | none => panesLoop env rest acc
        | some raw =>
          let content := raw.take (MAX_BUFFER_SIZE - 1)
          if 10 < content.length then
            let r := panesLoop env rest (appendPane acc p.1 p.2.1 content)
            (r.1, (p.1, p.2.1) :: r.2)
          else panesLoop env rest acc
    else (acc, [])

/-- The active-pane capture used by both the empty-listing branch and the
`pane_count == 0` fallback: `fread` at most `sizeof(scrollback) - 1` bytes;
when `popen` fails the scrollback stays as it was (empty in both branches). -/
def activeCap (env : CaptureEnv) : CStr :=
  match env.captureActive with
  | none => []
  | some c => c.take (MAX_BUFFER_SIZE - 1)

/-- The source pane of the active-pane capture, when it contributed content. -/
def activeSrc (env : CaptureEnv) : List (CStr × CStr) :=
  match env.captureActive with
  | none => []
  | some c => if c = [] then [] else [(env.activeId, env.activeTitle)]

/-- `capture_all_panes`: clear the scrollback, list the panes (through
`execute_tmux_command` into `pane_list[2048]`), on failure return with the
scrollback cleared; on an empty listing capture the active pane; otherwise
run the pane loop and, if no pane was captured, fall back to the active
pane.  Returns the final scrollback together with the captured sources. -/
def capture_all_panes (env : CaptureEnv) : CStr × List (CStr × CStr) :=
  match execute_tmux_command env.paneListSpawn 2048 with
  | none => ([], [])
  | some pl =>
    if pl = [] then (activeCap env, activeSrc env)
    else
      let r := panesLoop env (splitLines pl) []
      if r.2 = [] then (activeCap env, activeSrc env) else r

/- ---------------------------------------------------------------------
Context refresh and session scanning
(`update_session_context`, `scan_tmux_sessions`).
--------------------------------------------------------------------- -/

/-- Environment for one `update_session_context` call: the spawn outcomes of
the two `tmux display-message` queries, the capture environment, and the
`time(NULL)` value. -/
structure RefreshEnv where
  paneIdSpawn : Option (CStr × Int)
  cwdSpawn : Option (CStr × Int)
  cap : CaptureEnv
  now : Nat

/-- `update_session_context`: overwrite `current_pane` / `current_cwd` when
the corresponding query succeeds (`strncpy` into `char[16]` / `char[PATH_MAX]`),
rebuild the scrollback with `capture_all_panes`, and set `last_activity`. -/
def update_session_context (env : RefreshEnv) (s : SessionContext) :
    SessionContext :=
  let s1 := match execute_tmux_command env.paneIdSpawn MAX_BUFFER_SIZE with
    | some o => { s with current_pane := o.take 15 }
    | none => s
  let s2 := match execute_tmux_command env.cwdSpawn MAX_BUFFER_SIZE with
    | some o => { s1 with current_cwd := o.take (PATH_MAX - 1) }
    | none => s1
  let r := capture_all_panes env.cap
  { s2 with scrollback := r.1, scrollback_len := r.1.length,
            last_activity := env.now }

/-- In-place refresh of the first entry whose `session_id` matches, exactly
as the C code mutates the entry returned by `find_session`; the Boolean
reports whether a match was found. -/
def updateFirstMatch (f : SessionContext → SessionContext) (id : CStr) :
    List SessionContext → List SessionContext × Bool
  | [] => ([], false)
  | s :: rest =>
    if s.session_id = id then (f s :: rest, true)
    else
      let r := updateFirstMatch f id rest
      (s :: r.1, r.2)

/-- One line of the `scan_tmux_sessions` loop: `find_session`, else
`create_session` (a no-op when the table is full), then
`update_session_context` on the obtained entry. -/
def scanOne (renv : CStr → RefreshEnv) (now : Nat)
    (st : List SessionContext) (line : CStr) : List SessionContext :=
  let r := updateFirstMatch (update_session_context (renv line)) line st
  if r.2 then r.1
  else if MAX_SESSIONS ≤ st.length then st
  else st ++ [update_session_context (renv line) (newSession line now)]

/-- `scan_tmux_sessions`: list the session names (through
`execute_tmux_command` into a `MAX_BUFFER_SIZE` buffer, failure leaves the
registry untouched), then process each `strtok` line. -/
def scan_tmux_sessions (spawnList : Option (CStr × Int))
    (renv : CStr → RefreshEnv) (now : Nat)
    (st : List SessionContext) : List SessionContext :=
  match execute_tmux_command spawnList MAX_BUFFER_SIZE with
  | none => st
  | some out => (splitLines out).foldl (scanOne renv now) st

/- ---------------------------------------------------------------------
Request server (`handle_client_request`).
--------------------------------------------------------------------- -/

/-- `snprintf` into `response[MAX_BUFFER_SIZE]`: at most `size - 1`
characters are kept. -/
def snprintfCap (s : CStr) : CStr := s.take (MAX_BUFFER_SIZE - 1)

/-- The `list` response: per session `snprintf` of `"%s (%s)\n"` into
`session_info[256]`, then `strncat` into the response with at most
`sizeof(response) - strlen(response) - 1` characters. -/
def listResponse (st : List SessionContext) : CStr :=
  st.foldl
    (fun acc s =>
      acc ++ ((s.session_id ++ " (".data ++ s.current_cwd ++ ")\n".data).take 255).take
        (MAX_BUFFER_SIZE - acc.length - 1)) []

/-- The `context:` dump format string
`"Session: %s\nCWD: %s\nPane: %s\nLast Activity: %ld\nScrollback Length: %d\nScrollback:\n%s\n"`. -/
def contextDump (s : SessionContext) : CStr :=
  "Session: ".data ++ s.session_id ++
  "\nCWD: ".data ++ s.current_cwd ++
  "\nPane: ".data ++ s.current_pane ++
  "\nLast Activity: ".data ++ natStr s.last_activity ++
  "\nScrollback Length: ".data ++ natStr s.scrollback_len ++
  "\nScrollback:\n".data ++ s.scrollback ++ "\n".data

/-- `handle_client_request`, as a function of the registry and the request
text: `strcmp` with `"status"`, `strncmp` of the first 8 characters with
`"context:"`, `strcmp` with `"list"`, else the generic error. -/
def handle_client_request (st : List SessionContext) (buffer : CStr) : CStr :=
  if buffer = "status".data then
    snprintfCap ("OK: ".data ++ natStr st.length ++ " sessions tracked".data)
  else if buffer.take 8 = "context:".data then
    match find_session st (buffer.drop 8) with
    | some s => snprintfCap (contextDump s)
    | none => snprintfCap ("ERROR: Session not found".data)
  else if buffer = "list".data then listResponse st
  else snprintfCap ("ERROR: Unknown command".data)

/- ---------------------------------------------------------------------
Concrete inputs used by witnesses and counterexamples.
--------------------------------------------------------------------- -/

/-- A pane that "reports no meaningful content": its capture either fails or
yields at most 10 bytes (after the `fread` bound of the temp buffer). -/
def paneNoise (env : CaptureEnv) (line : CStr) : Bool :=
  match env.capturePane (parsePaneLine line).1 with
  | none => true
  | some c => decide ((c.take (MAX_BUFFER_SIZE - 1)).length ≤ 10)

/-- A registry filled to capacity. -/
def full32 : List SessionContext := List.replicate 32 (newSession ['a'] 0)

/-- A 64-character session id: one character too long for the 64-byte
`session_id` field. -/
def idLong : CStr := List.replicate 64 'a'

/-- Environment where the only listed pane is the muxgeist pane itself and
it is also the active pane. -/
def envCx : CaptureEnv :=
  { paneListSpawn := some ("0.0:muxgeist:sh".data, 0)
    capturePane := fun _ => none
    captureActive := some ("muxgeist says hello".data)
    activeId := "0.0".data
    activeTitle := "muxgeist".data }

/-- Environment with one muxgeist pane and one ordinary pane. -/
def envW4 : CaptureEnv :=
  { paneListSpawn := some ("0.0:muxgeist:sh\n0.1:vi:vi".data, 0)
    capturePane := fun pid =>
      if pid = "0.1".data then some ("editor buffer text".data)
      else some ("SECRET".data)
    captureActive := some ("act".data)
    activeId := "0.1".data
    activeTitle := "vi".data }

/-- Environment where the single listed pane reports only two bytes. -/
def envW5 : CaptureEnv :=
  { paneListSpawn := some ("0.0:sh:sh".data, 0)
    capturePane := fun _ => some ("hi".data)
    captureActive := some ("active out".data)
    activeId := "0.0".data
    activeTitle := "sh".data }

/-- Trivial environment (every external call fails). -/
def envW6 : CaptureEnv :=
  { paneListSpawn := none
    capturePane := fun _ => none
    captureActive := none
    activeId := []
    activeTitle := [] }

/-- The session of the `list` protocol scenario. -/
def mainSession : SessionContext :=
  { session_id := "main".data
    current_cwd := "/home/u".data
    current_pane := []
    last_activity := 0
    scrollback := []
    scrollback_len := 0 }

/-- A session whose scrollback is at full capacity (reachable: a single pane
producing more than the buffer holds fills it to 16383 bytes). -/
def bigSession : SessionContext :=
  { session_id := ['m']
    current_cwd := []
    current_pane := []
    last_activity := 0
    scrollback := List.replicate 16383 'x'
    scrollback_len := 16383 }

/- ---------------------------------------------------------------------
Helper lemmas.
--------------------------------------------------------------------- -/

lemma take_len_le {l : CStr} {n : Nat} (h : l.length ≤ n) : l.take n = l :=
  List.take_of_length_le h

lemma find_session_none_iff (st : List SessionContext) (id : CStr) :
    find_session st id = none ↔ ∀ s ∈ st, s.session_id ≠ id := by
  simp [find_session, List.find?_eq_none]

lemma find_session_append_none (st1 st2 : List SessionContext) (id : CStr)
    (h : find_session st1 id = none) :
    find_session (st1 ++ st2) id = find_session st2 id := by
  induction st1 with
  | nil => rfl
  | cons s rest ih =>
    unfold find_session at h ih ⊢
    cases hb : s.session_id == id with
    | true => simp [List.find?, hb] at h
    | false =>
      simp only [List.cons_append, List.find?, hb] at h ⊢
      exact ih h

lemma createIfAbsent_length_le (st : List SessionContext) (id : CStr) (now : Nat)
    (h : st.length ≤ MAX_SESSIONS) :
    ((createIfAbsent st id now).1).length ≤ MAX_SESSIONS := by
  unfold createIfAbsent create_session
  cases hf : find_session st id with
  | some s => simpa using h
  | none =>
    by_cases hfull : MAX_SESSIONS ≤ st.length
    · simpa [hfull] using h
    · simp only [hfull, if_false]
      simp only [List.length_append, List.length_singleton]
      omega

lemma runScans_le_aux (ops : List (CStr × Nat)) :
    ∀ st, st.length ≤ MAX_SESSIONS →
      (ops.foldl (fun st p => (createIfAbsent st p.1 p.2).1) st).length ≤
        MAX_SESSIONS := by
  induction ops with
  | nil => intro st h; simpa using h
  | cons p rest ih =>
    intro st h
    exact ih _ (createIfAbsent_length_le st p.1 p.2 h)

/- ---------------------------------------------------------------------
C1: bounded registry, silent drop when full.
--------------------------------------------------------------------- -/

/-- C1: the registry never exceeds its capacity `MAX_SESSIONS = 32`: any
sequence of find-or-create steps from the empty registry keeps at most 32
entries, and once the registry is full, a find-or-create for an unseen id
returns the null result, leaves the registry unchanged, and the id does not
occur among the stored session ids (so it cannot appear in a `list`
response). -/
theorem muxgeist_C1 :
    (∀ ops : List (CStr × Nat), (runScans ops).length ≤ MAX_SESSIONS) ∧
    (∀ st id now, MAX_SESSIONS ≤ st.length → find_session st id = none →
      createIfAbsent st id now = (st, none) ∧
        id ∉ (createIfAbsent st id now).1.map SessionContext.session_id) := by
  constructor
  · intro ops
    exact runScans_le_aux ops [] (by simp)
  · intro st id now hfull hnone
    have heq : createIfAbsent st id now = (st, none) := by
      unfold createIfAbsent create_session
      rw [hnone]
      simp [hfull]
    refine ⟨heq, ?_⟩
    rw [heq]
    intro hmem
    obtain ⟨s, hs, hsid⟩ := List.mem_map.mp hmem
    exact ((find_session_none_iff st id).mp hnone s hs) hsid

theorem muxgeist_C1_witness :
    MAX_SESSIONS ≤ full32.length ∧ find_session full32 ['x'] = none ∧
      (createIfAbsent full32 ['x'] 5 = (full32, none) ∧
        ['x'] ∉ (createIfAbsent full32 ['x'] 5).1.map SessionContext.session_id) :=
  ⟨by decide, by decide, muxgeist_C1.2 full32 ['x'] 5 (by decide) (by decide)⟩

/- ---------------------------------------------------------------------
C2: creation is idempotent and identity-preserving.
--------------------------------------------------------------------- -/

/-- C2 (corrected): the claim as stated fails for identifiers that do not
fit the 64-byte `session_id` field.  For an id of at most 63 characters it
holds: if find-or-create returns an entry, a subsequent `find_session` with
the same id returns that same entry, and a later find-or-create returns the
existing entry with the registry unchanged. -/
theorem muxgeist_C2 (st st2 : List SessionContext) (id : CStr) (now now2 : Nat)
    (s : SessionContext) (hlen : id.length ≤ 63)
    (h : createIfAbsent st id now = (st2, some s)) :
    find_session st2 id = some s ∧
      createIfAbsent st2 id now2 = (st2, some s) := by
  have hfind : find_session st2 id = some s := by
    unfold createIfAbsent at h
    cases hf : find_session st id with
    | some t =>
      rw [hf] at h
      injection h with h1 h2
      injection h2 with h3
      rw [← h1, ← h3]
      exact hf
    | none =>
      rw [hf] at h
      unfold create_session at h
      by_cases hfull : MAX_SESSIONS ≤ st.length
      · simp [hfull] at h
      · simp only [hfull, if_false, Prod.mk.injEq, Option.some.injEq] at h
        obtain ⟨h1, h2⟩ := h
        rw [← h1, ← h2]
        rw [find_session_append_none _ _ _ hf]
        simp [find_session, List.find?, newSession, take_len_le hlen]
  refine ⟨hfind, ?_⟩
  unfold createIfAbsent
  rw [hfind]

/-- C2 counterexample: a 64-character id is accepted by find-or-create
(non-null result), yet a subsequent `find_session` with the same id fails,
because `strncpy` stored only its first 63 characters. -/
theorem muxgeist_C2_counterexample :
    (createIfAbsent [] idLong 0).2.isSome = true ∧
      find_session (createIfAbsent [] idLong 0).1 idLong = none := by
  decide

theorem muxgeist_C2_witness :
    (['m'] : CStr).length ≤ 63 ∧
      (find_session [newSession ['m'] 0] ['m'] = some (newSession ['m'] 0) ∧
        createIfAbsent [newSession ['m'] 0] ['m'] 7 =
          ([newSession ['m'] 0], some (newSession ['m'] 0))) :=
  ⟨by decide,
    muxgeist_C2 [] [newSession ['m'] 0] ['m'] 0 7 (newSession ['m'] 0)
      (by decide) (by decide)⟩

/- ---------------------------------------------------------------------
C3: stored session ids are pairwise distinct.
--------------------------------------------------------------------- -/

lemma createIfAbsent_nodup (st : List SessionContext) (id : CStr) (now : Nat)
    (hlen : id.length ≤ 63)
    (hnd : (st.map SessionContext.session_id).Nodup) :
    (((createIfAbsent st id now).1).map SessionContext.session_id).Nodup := by
  unfold createIfAbsent create_session
  cases hf : find_session st id with
  | some s => simpa using hnd
  | none =>
    by_cases hfull : MAX_SESSIONS ≤ st.length
    · simpa [hfull] using hnd
    · simp only [hfull, if_false]
      have hnotin : id ∉ st.map SessionContext.session_id := by
        intro hmem
        obtain ⟨s, hs, hsid⟩ := List.mem_map.mp hmem
        exact ((find_session_none_iff st id).mp hf s hs) hsid
      simp [newSession, take_len_le hlen, List.nodup_append, hnd, hnotin]

lemma scans_nodup_aux (ops : List (CStr × Nat)) :
    ∀ st, (st.map SessionContext.session_id).Nodup →
      (∀ p ∈ ops, p.1.length ≤ 63) →
      (((ops.foldl (fun st p => (createIfAbsent st p.1 p.2).1) st)).map
        SessionContext.session_id).Nodup := by
  induction ops with
  | nil => intro st h _; simpa using h
  | cons p rest ih =>
    intro st h hall
    exact ih _ (createIfAbsent_nodup st p.1 p.2 (hall p (by simp)) h)
      (fun q hq => hall q (by simp [hq]))

/-- C3 (corrected): the claim as stated fails for external identifiers
longer than the 64-byte `session_id` field.  When every id fed to
find-or-create has at most 63 characters, the stored session ids are
pairwise distinct in every reachable registry state. -/
theorem muxgeist_C3 (ops : List (CStr × Nat))
    (h : ∀ p ∈ ops, p.1.length ≤ 63) :
    ((runScans ops).map SessionContext.session_id).Nodup :=
  scans_nodup_aux ops [] (by simp) h

/-- C3 counterexample: feeding the same 64-character external id twice
(exactly what `scan_tmux_sessions` does when the listing repeats it over two
poll cycles) produces two registry entries with equal `session_id`. -/
theorem muxgeist_C3_counterexample :
    ¬ (((createIfAbsent (createIfAbsent [] idLong 0).1 idLong 1).1.map
        SessionContext.session_id).Nodup) := by
  decide

theorem muxgeist_C3_witness :
    (∀ p ∈ [((['a'] : CStr), 0), (['b'], 1)], p.1.length ≤ 63) ∧
      ((runScans [(['a'], 0), (['b'], 1)]).map SessionContext.session_id).Nodup :=
  ⟨by decide, muxgeist_C3 [(['a'], 0), (['b'], 1)] (by decide)⟩

/- ---------------------------------------------------------------------
C7: external command runner.
--------------------------------------------------------------------- -/

lemma stripNl_length_le (l : CStr) : (stripNl l).length ≤ l.length := by
  unfold stripNl
  split
  · simp [List.length_dropLast]
  · exact Nat.le_refl _

/-- C7: the runner returns an error exactly when the process cannot be
started (`popen` fails); the exit status of the external program is ignored;
the returned text never exceeds the caller-supplied capacity (silent
truncation); and when the output fits, exactly one trailing newline is
stripped (the remainder is returned verbatim, even if it still ends in a
newline). -/
theorem muxgeist_C7 :
    (∀ n, execute_tmux_command none n = none) ∧
    (∀ out : CStr, ∀ ec1 ec2 : Int, ∀ n,
      execute_tmux_command (some (out, ec1)) n =
        execute_tmux_command (some (out, ec2)) n ∧
      (execute_tmux_command (some (out, ec1)) n).isSome = true) ∧
    (∀ out : CStr, ∀ ec : Int, ∀ n r,
      execute_tmux_command (some (out, ec)) n = some r → r.length ≤ n - 1) ∧
    (∀ s : CStr, ∀ ec : Int, ∀ n, s.length + 1 ≤ n - 1 →
      execute_tmux_command (some (s ++ ['\n'], ec)) n = some s) := by
  refine ⟨fun n => rfl, fun out ec1 ec2 n => ⟨rfl, rfl⟩, ?_, ?_⟩
  · intro out ec n r h
    unfold execute_tmux_command at h
    injection h with h1
    rw [← h1]
    calc (stripNl (out.take (n - 1))).length
        ≤ (out.take (n - 1)).length := stripNl_length_le _
      _ ≤ n - 1 := by simp [List.length_take]
  · intro s ec n h
    show some (stripNl ((s ++ ['\n']).take (n - 1))) = some s
    have htake : (s ++ ['\n']).take (n - 1) = s ++ ['\n'] := by
      apply take_len_le
      simpa using h
    rw [htake]
    unfold stripNl
    rw [if_pos (by simp [List.getLast?_concat])]
    simp [List.dropLast_concat]

theorem muxgeist_C7_witness :
    execute_tmux_command (some ("hello".data, 2)) 4 = some ("hel".data) ∧
      ("hel".data).length ≤ 4 - 1 ∧
      ("ab\n".data).length + 1 ≤ 100 - 1 ∧
      execute_tmux_command (some ("ab\n".data ++ ['\n'], 7)) 100 =
        some ("ab\n".data) :=
  ⟨by decide, muxgeist_C7.2.2.1 ("hello".data) 2 4 ("hel".data) (by decide),
    by decide, muxgeist_C7.2.2.2 ("ab\n".data) 7 100 (by decide)⟩

/- ---------------------------------------------------------------------
C4: self-exclusion of the muxgeist pane.
--------------------------------------------------------------------- -/

lemma panesLoop_cons (env : CaptureEnv) (line : CStr) (rest : List CStr)
    (acc : CStr) :
    panesLoop env (line :: rest) acc =
      if acc.length < MAX_BUFFER_SIZE - 500 then
        if containsSub "muxgeist".data (parsePaneLine line).2.1 then
          panesLoop env rest acc
        else
          match env.capturePane (parsePaneLine line).1 with
          | none => panesLoop env rest acc
          | some raw =>
            if 10 < (raw.take (MAX_BUFFER_SIZE - 1)).length then
              ((panesLoop env rest (appendPane acc (parsePaneLine line).1
                  (parsePaneLine line).2.1 (raw.take (MAX_BUFFER_SIZE - 1)))).1,
                ((parsePaneLine line).1, (parsePaneLine line).2.1) ::
                  (panesLoop env rest (appendPane acc (parsePaneLine line).1
                    (parsePaneLine line).2.1 (raw.take (MAX_BUFFER_SIZE - 1)))).2)
            else panesLoop env rest acc
      else (acc, []) := rfl

/-- Exhaustive case analysis of one iteration of the pane loop: the loop
stops at the 500-byte reserve, or the line is skipped (self-excluded pane,
failed capture, or noise content), or the pane is captured and recorded. -/
lemma panesLoop_cons_cases (env : CaptureEnv) (line : CStr) (rest : List CStr)
    (acc : CStr) :
    (panesLoop env (line :: rest) acc = (acc, []) ∧
      MAX_BUFFER_SIZE - 500 ≤ acc.length) ∨
    (panesLoop env (line :: rest) acc = panesLoop env rest acc) ∨
    (∃ raw, env.capturePane (parsePaneLine line).1 = some raw ∧
      containsSub "muxgeist".data (parsePaneLine line).2.1 = false ∧
      acc.length < MAX_BUFFER_SIZE - 500 ∧
      10 < (raw.take (MAX_BUFFER_SIZE - 1)).length ∧
      panesLoop env (line :: rest) acc =
        ((panesLoop env rest (appendPane acc (parsePaneLine line).1
            (parsePaneLine line).2.1 (raw.take (MAX_BUFFER_SIZE - 1)))).1,
          ((parsePaneLine line).1, (parsePaneLine line).2.1) ::
            (panesLoop env rest (appendPane acc (parsePaneLine line).1
              (parsePaneLine line).2.1 (raw.take (MAX_BUFFER_SIZE - 1)))).2)) := by
  rw [panesLoop_cons]
  split
  · rename_i h1
    split
    · exact Or.inr (Or.inl rfl)
    · rename_i h2
      split
      · exact Or.inr (Or.inl rfl)
      · rename_i raw hc
        split
        · rename_i h3
          exact Or.inr (Or.inr ⟨raw, hc, by simpa using h2, h1, h3, rfl⟩)
        · exact Or.inr (Or.inl rfl)
  · rename_i h1
    exact Or.inl ⟨rfl, by omega⟩

lemma panesLoop_sources (env : CaptureEnv) :
    ∀ lines acc, ∀ pt ∈ (panesLoop env lines acc).2,
      containsSub "muxgeist".data pt.2 = false := by
  intro lines
  induction lines with
  | nil =>
    intro acc pt h
    simp [panesLoop] at h
  | cons line rest ih =>
    intro acc pt h
    rcases panesLoop_cons_cases env line rest acc with
      ⟨heq, _⟩ | heq | ⟨raw, hc, h2, h1, h3, heq⟩
    · rw [heq] at h
      simp at h
    · rw [heq] at h
      exact ih acc pt h
    · rw [heq] at h
      rcases List.mem_cons.mp h with rfl | hmem
      · exact h2
      · exact ih _ pt hmem

lemma capture_all_panes_none (env : CaptureEnv)
    (hq : execute_tmux_command env.paneListSpawn 2048 = none) :
    capture_all_panes env = ([], []) := by
  unfold capture_all_panes
  rw [hq]

lemma capture_all_panes_some (env : CaptureEnv) (pl : CStr)
    (hq : execute_tmux_command env.paneListSpawn 2048 = some pl) :
    capture_all_panes env =
      if pl = [] then (activeCap env, activeSrc env)
      else
        if (panesLoop env (splitLines pl) []).2 = [] then
          (activeCap env, activeSrc env)
        else panesLoop env (splitLines pl) [] := by
  unfold capture_all_panes
  rw [hq]

lemma activeSrc_mem (env : CaptureEnv) (pt : CStr × CStr)
    (h : pt ∈ activeSrc env) : pt.2 = env.activeTitle := by
  unfold activeSrc at h
  rcases henv : env.captureActive with _ | c <;> rw [henv] at h
  · have h' : pt ∈ ([] : List (CStr × CStr)) := h
    simp at h'
  · have h' : pt ∈ (if c = [] then ([] : List (CStr × CStr))
        else [(env.activeId, env.activeTitle)]) := h
    by_cases hc : c = []
    · rw [if_pos hc] at h'
      simp at h'
    · rw [if_neg hc] at h'
      have hpt := List.mem_singleton.mp h'
      rw [hpt]

/-- C4 (corrected): the per-pane loop never captures a pane whose parsed
title contains `"muxgeist"`, but the claim as stated fails on the fallback
path: when zero panes are captured, the active pane is captured without any
title check.  Provided the active pane is not itself self-excluded, no
captured source has a title containing `"muxgeist"`. -/
theorem muxgeist_C4 (env : CaptureEnv)
    (hact : containsSub "muxgeist".data env.activeTitle = false) :
    ∀ pt ∈ (capture_all_panes env).2, containsSub "muxgeist".data pt.2 = false := by
  intro pt h
  cases hq : execute_tmux_command env.paneListSpawn 2048 with
  | none =>
    rw [capture_all_panes_none env hq] at h
    simp at h
  | some pl =>
    rw [capture_all_panes_some env pl hq] at h
    by_cases hpl : pl = []
    · rw [if_pos hpl] at h
      rw [activeSrc_mem env pt h]
      exact hact
    · rw [if_neg hpl] at h
      by_cases hz : (panesLoop env (splitLines pl) []).2 = []
      · rw [if_pos hz] at h
        rw [activeSrc_mem env pt h]
        exact hact
      · rw [if_neg hz] at h
        exact panesLoop_sources env (splitLines pl) [] pt h

/-- C4 counterexample: all listed panes are the muxgeist pane, so the
fallback captures the active pane — which is the muxgeist pane itself — and
the resulting scrollback is exactly that pane's (non-empty) content. -/
theorem muxgeist_C4_counterexample :
    (capture_all_panes envCx).2 = [("0.0".data, "muxgeist".data)] ∧
      containsSub "muxgeist".data ("muxgeist".data) = true ∧
      (capture_all_panes envCx).1 = "muxgeist says hello".data ∧
      (capture_all_panes envCx).1 ≠ [] := by
  decide

theorem muxgeist_C4_witness :
    containsSub "muxgeist".data envW4.activeTitle = false ∧
      containsSub "muxgeist".data ("vi".data) = false :=
  ⟨by decide, muxgeist_C4 envW4 (by decide) ("0.1".data, "vi".data) (by decide)⟩

/- ---------------------------------------------------------------------
C5: all-noise fallback to the active pane.
--------------------------------------------------------------------- -/

lemma panesLoop_noise (env : CaptureEnv) (lines : List CStr)
    (hall : lines.all (fun line =>
      containsSub "muxgeist".data (parsePaneLine line).2.1 ||
        paneNoise env line) = true) :
    panesLoop env lines [] = ([], []) := by
  induction lines with
  | nil => rfl
  | cons line rest ih =>
    rw [List.all_cons, Bool.and_eq_true] at hall
    have hrest := ih hall.2
    rw [panesLoop_cons, if_pos (by decide : ([] : CStr).length < MAX_BUFFER_SIZE - 500)]
    cases hmux : containsSub "muxgeist".data (parsePaneLine line).2.1 with
    | true =>
      rw [if_pos rfl]
      exact hrest
    | false =>
      rw [if_neg Bool.false_ne_true]
      have hnoise : paneNoise env line = true := by
        simpa [hmux] using hall.1
      unfold paneNoise at hnoise
      cases hc : env.capturePane (parsePaneLine line).1 with
      | none => exact hrest
      | some raw =>
        rw [hc] at hnoise
        have hle : ¬ 10 < (raw.take (MAX_BUFFER_SIZE - 1)).length := by
          have h10 : (List.take (MAX_BUFFER_SIZE - 1) raw).length ≤ 10 :=
            of_decide_eq_true hnoise
          omega
        show (if 10 < (raw.take (MAX_BUFFER_SIZE - 1)).length then
            ((panesLoop env rest (appendPane [] (parsePaneLine line).1
                (parsePaneLine line).2.1 (raw.take (MAX_BUFFER_SIZE - 1)))).1,
              ((parsePaneLine line).1, (parsePaneLine line).2.1) ::
                (panesLoop env rest (appendPane [] (parsePaneLine line).1
                  (parsePaneLine line).2.1 (raw.take (MAX_BUFFER_SIZE - 1)))).2)
          else panesLoop env rest []) = ([], [])
        rw [if_neg hle]
        exact hrest

/-- C5: if the pane listing is non-empty but every listed pane is either
self-excluded or reports at most 10 bytes of content (or its capture
fails), the engine falls back to capturing the active pane verbatim (up to
the buffer bound), and the scrollback is non-empty whenever the active
pane produces output. -/
theorem muxgeist_C5 (env : CaptureEnv) (raw : CStr) (ec : Int)
    (hq : env.paneListSpawn = some (raw, ec))
    (hne : stripNl (raw.take 2047) ≠ [])
    (hall : (splitLines (stripNl (raw.take 2047))).all (fun line =>
      containsSub "muxgeist".data (parsePaneLine line).2.1 ||
        paneNoise env line) = true) :
    (capture_all_panes env).1 = activeCap env ∧
      (∀ c, env.captureActive = some c → c ≠ [] →
        (capture_all_panes env).1 ≠ []) := by
  have hexec : execute_tmux_command env.paneListSpawn 2048 =
      some (stripNl (raw.take 2047)) := by
    rw [hq]
    rfl
  have hcap : capture_all_panes env = (activeCap env, activeSrc env) := by
    rw [capture_all_panes_some env _ hexec, if_neg hne,
      panesLoop_noise env _ hall]
    simp
  refine ⟨by rw [hcap], ?_⟩
  intro c hc hcne
  rw [hcap]
  show activeCap env ≠ []
  unfold activeCap
  rw [hc]
  simp [List.take_eq_nil_iff, hcne]
  decide

theorem muxgeist_C5_witness :
    envW5.paneListSpawn = some ("0.0:sh:sh".data, 0) ∧
      stripNl (("0.0:sh:sh".data).take 2047) ≠ [] ∧
      (splitLines (stripNl (("0.0:sh:sh".data).take 2047))).all (fun line =>
        containsSub "muxgeist".data (parsePaneLine line).2.1 ||
          paneNoise envW5 line) = true ∧
      (capture_all_panes envW5).1 = activeCap envW5 ∧
      (capture_all_panes envW5).1 ≠ [] :=
  ⟨rfl, by decide, by decide,
    (muxgeist_C5 envW5 ("0.0:sh:sh".data) 0 rfl (by decide) (by decide)).1,
    (muxgeist_C5 envW5 ("0.0:sh:sh".data) 0 rfl (by decide) (by decide)).2
      ("active out".data) rfl (by decide)⟩

/- ---------------------------------------------------------------------
C6: buffer truncation and capacity invariant.
--------------------------------------------------------------------- -/

lemma paneHeader_length (pid title : CStr) :
    (paneHeader pid title).length = 18 + pid.length + title.length := by
  have h1 : ("\n=== PANE ".data).length = 10 := rfl
  have h2 : (" (".data).length = 2 := rfl
  have h3 : (") ===\n".data).length = 6 := rfl
  simp only [paneHeader, List.length_append, h1, h2, h3]
  omega

lemma appendPane_spec (acc pid title content : CStr)
    (h1 : acc.length < MAX_BUFFER_SIZE - 500) (h2 : pid.length ≤ 31)
    (h3 : title.length ≤ 63) :
    appendPane acc pid title content =
      acc ++ paneHeader pid title ++
        content.take (min content.length
          (MAX_BUFFER_SIZE - (acc.length + (paneHeader pid title).length) - 1)) ∧
      (appendPane acc pid title content).length ≤ MAX_BUFFER_SIZE - 1 := by
  have hh := paneHeader_length pid title
  have hfits : acc.length + (paneHeader pid title).length < MAX_BUFFER_SIZE := by
    unfold MAX_BUFFER_SIZE at *
    omega
  have heq : appendPane acc pid title content =
      acc ++ paneHeader pid title ++
        content.take (min content.length
          (MAX_BUFFER_SIZE - (acc.length + (paneHeader pid title).length) - 1)) := by
    unfold appendPane
    dsimp only
    rw [if_pos hfits]
    rw [List.length_append, List.append_assoc]
  refine ⟨heq, ?_⟩
  rw [heq]
  simp only [List.length_append, List.length_take]
  unfold MAX_BUFFER_SIZE at *
  omega

lemma parsePaneLine_pid_le (line : CStr) : (parsePaneLine line).1.length ≤ 31 := by
  unfold parsePaneLine
  split
  · simp [List.length_take]
  · split <;> simp [List.length_take]

lemma parsePaneLine_title_le (line : CStr) :
    (parsePaneLine line).2.1.length ≤ 63 := by
  unfold parsePaneLine
  split
  · show ("shell".data).length ≤ 63
    decide
  · split <;> simp [List.length_take]

lemma panesLoop_len (env : CaptureEnv) :
    ∀ lines acc, acc.length ≤ MAX_BUFFER_SIZE - 1 →
      (panesLoop env lines acc).1.length ≤ MAX_BUFFER_SIZE - 1 := by
  intro lines
  induction lines with
  | nil =>
    intro acc h
    simpa [panesLoop] using h
  | cons line rest ih =>
    intro acc h
    rcases panesLoop_cons_cases env line rest acc with
      ⟨heq, _⟩ | heq | ⟨raw, hc, h2, h1, h3, heq⟩
    · rw [heq]
      simpa using h
    · rw [heq]
      exact ih acc h
    · rw [heq]
      exact ih _ ((appendPane_spec acc _ _ _ h1 (parsePaneLine_pid_le line)
        (parsePaneLine_title_le line)).2)

lemma activeCap_len (env : CaptureEnv) :
    (activeCap env).length ≤ MAX_BUFFER_SIZE - 1 := by
  unfold activeCap
  rcases env.captureActive with _ | c
  · simp
  · simp [List.length_take]

lemma panesLoop_stop (env : CaptureEnv) (lines : List CStr) (acc : CStr)
    (h : MAX_BUFFER_SIZE - 500 ≤ acc.length) :
    panesLoop env lines acc = (acc, []) := by
  cases lines with
  | nil => rfl
  | cons line rest =>
    rw [panesLoop_cons, if_neg (by omega)]

/-- C6: one pane append truncates the content — never the header — to the
remaining capacity (`copy_len = min(content_len, available)`) and keeps the
total below the declared buffer size; the whole engine never records more
than `MAX_BUFFER_SIZE - 1` bytes of scrollback; and the pane loop stops
processing as soon as fewer than 500 bytes of reserve remain. -/
theorem muxgeist_C6 :
    (∀ acc pid title content : CStr,
      acc.length < MAX_BUFFER_SIZE - 500 → pid.length ≤ 31 → title.length ≤ 63 →
        appendPane acc pid title content =
          acc ++ paneHeader pid title ++
            content.take (min content.length
              (MAX_BUFFER_SIZE - (acc.length + (paneHeader pid title).length) - 1)) ∧
          (appendPane acc pid title content).length ≤ MAX_BUFFER_SIZE - 1) ∧
    (∀ env : CaptureEnv, (capture_all_panes env).1.length ≤ MAX_BUFFER_SIZE - 1) ∧
    (∀ (env : CaptureEnv) (lines : List CStr) (acc : CStr),
      MAX_BUFFER_SIZE - 500 ≤ acc.length → panesLoop env lines acc = (acc, [])) := by
  refine ⟨appendPane_spec, ?_, panesLoop_stop⟩
  intro env
  cases hq : execute_tmux_command env.paneListSpawn 2048 with
  | none =>
    rw [capture_all_panes_none env hq]
    simp
  | some pl =>
    rw [capture_all_panes_some env pl hq]
    by_cases hpl : pl = []
    · rw [if_pos hpl]
      exact activeCap_len env
    · rw [if_neg hpl]
      by_cases hz : (panesLoop env (splitLines pl) []).2 = []
      · rw [if_pos hz]
        exact activeCap_len env
      · rw [if_neg hz]
        exact panesLoop_len env (splitLines pl) [] (by simp)

theorem muxgeist_C6_witness :
    (([] : CStr).length < MAX_BUFFER_SIZE - 500 ∧
      ("0.0".data).length ≤ 31 ∧ ("shell".data).length ≤ 63) ∧
    (appendPane [] ("0.0".data) ("shell".data) ("abcdefghijkl".data) =
        [] ++ paneHeader ("0.0".data) ("shell".data) ++
          ("abcdefghijkl".data).take (min ("abcdefghijkl".data).length
            (MAX_BUFFER_SIZE - (([] : CStr).length +
              (paneHeader ("0.0".data) ("shell".data)).length) - 1)) ∧
      (appendPane [] ("0.0".data) ("shell".data) ("abcdefghijkl".data)).length ≤
        MAX_BUFFER_SIZE - 1) ∧
    (capture_all_panes envW6).1.length ≤ MAX_BUFFER_SIZE - 1 ∧
    (MAX_BUFFER_SIZE - 500 ≤ (List.replicate 15884 'x').length ∧
      panesLoop envW6 [['a']] (List.replicate 15884 'x') =
        (List.replicate 15884 'x', [])) :=
  ⟨⟨by decide, by decide, by decide⟩,
    muxgeist_C6.1 [] ("0.0".data) ("shell".data) ("abcdefghijkl".data)
      (by decide) (by decide) (by decide),
    muxgeist_C6.2.1 envW6,
    ⟨by rw [List.length_replicate]; decide,
      muxgeist_C6.2.2 envW6 [['a']] (List.replicate 15884 'x')
        (by rw [List.length_replicate]; decide)⟩⟩

/- ---------------------------------------------------------------------
C8, C9: protocol responses.
--------------------------------------------------------------------- -/

lemma natStr_le_two (n : Nat) (h : n ≤ 32) : (natStr n).length ≤ 2 := by
  have hall : ∀ m, m < 33 → (natStr m).length ≤ 2 := by decide
  exact hall n (by omega)

lemma handle_status (st : List SessionContext) (h : st.length ≤ MAX_SESSIONS) :
    handle_client_request st ("status".data) =
      "OK: ".data ++ natStr st.length ++ " sessions tracked".data := by
  unfold handle_client_request
  rw [if_pos rfl]
  apply take_len_le
  have h2 : (natStr st.length).length ≤ 2 :=
    natStr_le_two st.length (by unfold MAX_SESSIONS at h; omega)
  have h3 : ("OK: ".data).length = 4 := rfl
  have h4 : (" sessions tracked".data).length = 17 := rfl
  simp only [List.length_append, h3, h4]
  unfold MAX_BUFFER_SIZE
  omega

lemma context_ne_status (id : CStr) : "context:".data ++ id ≠ "status".data := by
  intro he
  have hl : ("context:".data ++ id).length = ("status".data).length :=
    congrArg List.length he
  have hl2 : id.length + 8 = 6 := hl
  omega

lemma handle_context_found (st : List SessionContext) (id : CStr)
    (s : SessionContext) (h : find_session st id = some s) :
    handle_client_request st ("context:".data ++ id) =
      snprintfCap (contextDump s) := by
  unfold handle_client_request
  rw [if_neg (context_ne_status id)]
  have htake : ("context:".data ++ id).take 8 = "context:".data := by
    have h8 : ("context:".data).length = 8 := rfl
    rw [← h8, List.take_left]
  have hdrop : ("context:".data ++ id).drop 8 = id := by
    have h8 : ("context:".data).length = 8 := rfl
    rw [← h8, List.drop_left]
  rw [htake, if_pos rfl, hdrop, h]

lemma handle_context_missing (st : List SessionContext) (id : CStr)
    (h : find_session st id = none) :
    handle_client_request st ("context:".data ++ id) =
      "ERROR: Session not found".data := by
  unfold handle_client_request
  rw [if_neg (context_ne_status id)]
  have htake : ("context:".data ++ id).take 8 = "context:".data := by
    have h8 : ("context:".data).length = 8 := rfl
    rw [← h8, List.take_left]
  have hdrop : ("context:".data ++ id).drop 8 = id := by
    have h8 : ("context:".data).length = 8 := rfl
    rw [← h8, List.drop_left]
  rw [htake, if_pos rfl, hdrop, h]
  rfl

/-- C8: the protocol table holds exactly: `status` on the empty registry
answers `OK: 0 sessions tracked` (and in general `OK: <N> sessions tracked`
for a registry within capacity); `context:<id>` for an unregistered id
answers `ERROR: Session not found`; any request that is none of the three
commands answers `ERROR: Unknown command`; and `list` with the single
session `main` at cwd `/home/u` answers exactly `main (/home/u)\n`. -/
theorem muxgeist_C8 :
    handle_client_request [] ("status".data) = "OK: 0 sessions tracked".data ∧
    (∀ st : List SessionContext, st.length ≤ MAX_SESSIONS →
      handle_client_request st ("status".data) =
        "OK: ".data ++ natStr st.length ++ " sessions tracked".data) ∧
    (∀ (st : List SessionContext) (id : CStr), find_session st id = none →
      handle_client_request st ("context:".data ++ id) =
        "ERROR: Session not found".data) ∧
    (∀ (st : List SessionContext) (b : CStr), b ≠ "status".data →
      b.take 8 ≠ "context:".data → b ≠ "list".data →
      handle_client_request st b = "ERROR: Unknown command".data) ∧
    handle_client_request [mainSession] ("list".data) = "main (/home/u)\n".data := by
  refine ⟨by decide, handle_status, handle_context_missing, ?_, by decide⟩
  intro st b h1 h2 h3
  unfold handle_client_request
  rw [if_neg h1, if_neg h2, if_neg h3]
  rfl

theorem muxgeist_C8_witness :
    ([mainSession].length ≤ MAX_SESSIONS ∧
      handle_client_request [mainSession] ("status".data) =
        "OK: ".data ++ natStr [mainSession].length ++ " sessions tracked".data) ∧
    (find_session [] ("ghost".data) = none ∧
      handle_client_request [] ("context:".data ++ "ghost".data) =
        "ERROR: Session not found".data) ∧
    ("bogus".data ≠ "status".data ∧ ("bogus".data).take 8 ≠ "context:".data ∧
      "bogus".data ≠ "list".data ∧
      handle_client_request [] ("bogus".data) = "ERROR: Unknown command".data) :=
  ⟨⟨by decide, muxgeist_C8.2.1 [mainSession] (by decide)⟩,
    ⟨by decide, muxgeist_C8.2.2.1 [] ("ghost".data) (by decide)⟩,
    ⟨by decide, by decide, by decide,
      muxgeist_C8.2.2.2.1 [] ("bogus".data) (by decide) (by decide) (by decide)⟩⟩

/-- C9 (corrected): the `context:` response for a registered session is the
full field dump only as long as the formatted dump fits the 16 KiB response
buffer; `snprintf` truncates it to `MAX_BUFFER_SIZE - 1` characters, so a
near-capacity scrollback is cut off.  In general the response equals the
dump truncated to `MAX_BUFFER_SIZE - 1` characters, and it equals the full
dump exactly when the dump fits. -/
theorem muxgeist_C9 (st : List SessionContext) (id : CStr) (s : SessionContext)
    (h : find_session st id = some s) :
    handle_client_request st ("context:".data ++ id) =
      (contextDump s).take (MAX_BUFFER_SIZE - 1) ∧
    ((contextDump s).length ≤ MAX_BUFFER_SIZE - 1 →
      handle_client_request st ("context:".data ++ id) = contextDump s) := by
  have hc := handle_context_found st id s h
  refine ⟨hc, fun hlen => ?_⟩
  rw [hc]
  exact take_len_le hlen

/-- C9 counterexample: with a full 16383-byte scrollback the formatted dump
exceeds the response buffer and the reply is not the full dump. -/
theorem muxgeist_C9_counterexample :
    handle_client_request [bigSession] ("context:m".data) ≠
      contextDump bigSession := by
  have hsplit : ("context:m".data : CStr) = "context:".data ++ ['m'] := rfl
  have hf : find_session [bigSession] ['m'] = some bigSession := rfl
  have hh : handle_client_request [bigSession] ("context:m".data) =
      snprintfCap (contextDump bigSession) := by
    rw [hsplit]
    exact handle_context_found [bigSession] ['m'] bigSession hf
  rw [hh]
  intro he
  have hD : 16384 ≤ (contextDump bigSession).length := by
    have hs : bigSession.scrollback.length = 16383 := by
      have hrep : bigSession.scrollback = List.replicate 16383 'x' := rfl
      rw [hrep, List.length_replicate]
    unfold contextDump
    simp only [List.length_append, hs]
    decide
  have hlen := congrArg List.length he
  rw [snprintfCap, List.length_take] at hlen
  unfold MAX_BUFFER_SIZE at hlen
  omega

theorem muxgeist_C9_witness :
    find_session [mainSession] ("main".data) = some mainSession ∧
      (contextDump mainSession).length ≤ MAX_BUFFER_SIZE - 1 ∧
      handle_client_request [mainSession] ("context:".data ++ "main".data) =
        contextDump mainSession :=
  ⟨by decide, by decide,
    (muxgeist_C9 [mainSession] ("main".data) mainSession (by decide)).2
      (by decide)⟩

/- ---------------------------------------------------------------------
C10: scanning preserves registry order.
--------------------------------------------------------------------- -/

lemma update_session_context_sid (env : RefreshEnv) (s : SessionContext) :
    (update_session_context env s).session_id = s.session_id := by
  unfold update_session_context
  cases execute_tmux_command env.paneIdSpawn MAX_BUFFER_SIZE <;>
    cases execute_tmux_command env.cwdSpawn MAX_BUFFER_SIZE <;> rfl

lemma updateFirstMatch_ids (f : SessionContext → SessionContext) (id : CStr)
    (hf : ∀ s, (f s).session_id = s.session_id) :
    ∀ st : List SessionContext,
      ((updateFirstMatch f id st).1).map SessionContext.session_id =
        st.map SessionContext.session_id := by
  intro st
  induction st with
  | nil => rfl
  | cons s rest ih =>
    unfold updateFirstMatch
    by_cases hb : s.session_id = id
    · rw [if_pos hb]
      simp [hf]
    · rw [if_neg hb]
      simpa using ih

lemma scanOne_ids (renv : CStr → RefreshEnv) (now : Nat)
    (st : List SessionContext) (line : CStr) :
    ∃ tail, (scanOne renv now st line).map SessionContext.session_id =
      st.map SessionContext.session_id ++ tail := by
  unfold scanOne
  by_cases hb :
      (updateFirstMatch (update_session_context (renv line)) line st).2 = true
  · refine ⟨[], ?_⟩
    rw [if_pos hb, List.append_nil]
    exact updateFirstMatch_ids _ _ (update_session_context_sid (renv line)) st
  · rw [if_neg hb]
    by_cases hfull : MAX_SESSIONS ≤ st.length
    · rw [if_pos hfull]
      exact ⟨[], by simp⟩
    · rw [if_neg hfull]
      refine ⟨[line.take 63], ?_⟩
      rw [List.map_append]
      simp [update_session_context_sid, newSession]

lemma scanFold_ids (renv : CStr → RefreshEnv) (now : Nat) :
    ∀ (lines : List CStr) (st : List SessionContext), ∃ tail,
      (lines.foldl (scanOne renv now) st).map SessionContext.session_id =
        st.map SessionContext.session_id ++ tail := by
  intro lines
  induction lines with
  | nil => exact fun st => ⟨[], by simp⟩
  | cons l rest ih =>
    intro st
    obtain ⟨t1, h1⟩ := scanOne_ids renv now st l
    obtain ⟨t2, h2⟩ := ih (scanOne renv now st l)
    exact ⟨t1 ++ t2, by simp [List.foldl_cons, h2, h1, List.append_assoc]⟩

/-- C10: one poll-cycle scan only refreshes existing entries in place (the
`session_id` of every entry is preserved at its position) and appends newly
discovered sessions at the end: the sequence of stored session ids before
the scan is an initial segment of the sequence after it.  Hence the `list`
response, which enumerates the registry in storage order, never changes the
relative order of two sessions across poll cycles, and never drops one. -/
theorem muxgeist_C10 (spawnList : Option (CStr × Int))
    (renv : CStr → RefreshEnv) (now : Nat) (st : List SessionContext) :
    ∃ tail, (scan_tmux_sessions spawnList renv now st).map
        SessionContext.session_id =
      st.map SessionContext.session_id ++ tail := by
  unfold scan_tmux_sessions
  cases execute_tmux_command spawnList MAX_BUFFER_SIZE with
  | none => exact ⟨[], by simp⟩
  | some out => exact scanFold_ids renv now (splitLines out) st
